import Mathlib

/-
Verification development for the mcp_server weather/air-quality/time tool server.

The Python sources are shallowly embedded in Lean:
  * exceptions become an explicit `PyExn` error type carried in `Except`;
  * HTTP fetches, `ZoneInfo` lookups and ISO parsing (external libraries) become
    oracle parameters supplying the values the library calls would return;
  * timestamps are modelled as wall-clock seconds plus an optional UTC-offset,
    matching how `dateutil.parser.isoparse` results are used by the code;
  * floats are idealised as rationals; Python `round` (round-half-to-even) is
    modelled exactly by `pyRound`.
Each definition carries a comment pointing to the source location it embeds.
-/

/-- Python exception classes that the embedded code distinguishes.  Handler
`except` clauses discriminate `ValueError` from everything else, and the
weather service rewraps `httpx.RequestError`, `KeyError` and `IndexError`. -/
inductive PyExn
  | valueError (msg : String)
  | keyError (key : String)
  | indexError (msg : String)
  | requestError (msg : String)
  | runtimeError (msg : String)
  | mcpError (msg : String)
  | attributeError (msg : String)
deriving DecidableEq, Repr

/-- Rendering of `str(e)` for an exception: `KeyError` shows the quoted key,
all the others show their message verbatim. -/
def PyExn.msg : PyExn → String
  | .valueError m => m
  | .keyError k => "\x27" ++ k ++ "\x27"
  | .indexError m => m
  | .requestError m => m
  | .runtimeError m => m
  | .mcpError m => m
  | .attributeError m => m

/-- Classification used by `except ValueError` clauses. -/
def PyExn.isValueError : PyExn → Bool
  | .valueError _ => true
  | _ => false

/-- Values appearing in a tool-call argument mapping (JSON scalars and lists
suffice for every schema in the repository). -/
inductive PyValue
  | str (s : String)
  | bool (b : Bool)
  | num (q : ℚ)
  | list (l : List PyValue)
  | none
deriving Repr

/-- Python truthiness for argument values, used by
`if include_forecast:` in tools_weather.py. -/
def PyValue.truthy : PyValue → Bool
  | .str s => decide (s ≠ "")
  | .bool b => b
  | .num q => decide (q ≠ 0)
  | .list l => !l.isEmpty
  | .none => false

/-- Rendering used where Python interpolates an argument value into an
f-string; on the string values actually sent by clients it is the identity. -/
def PyValue.toStr : PyValue → String
  | .str s => s
  | .bool b => if b then "True" else "False"
  | .num q => toString q
  | .list _ => "[...]"
  | .none => "None"

/-- MCP content items (mcp.types): `TextContent`, `ImageContent`,
`EmbeddedResource`.  Only text items are ever produced by this server. -/
inductive Content
  | text (text : String)
  | image (data : String) (mimeType : String)
  | embeddedResource (resource : String)
deriving DecidableEq, Repr

/-- The `arguments` value handed to `call_tool`: either a key-value mapping or
something that is not a dict (server_origin.py line 238 checks `isinstance`). -/
inductive PyArgs
  | dict (entries : List (String × PyValue))
  | nonDict

/-- JSON values, used to model `response.json()` payloads and `json.dumps`. -/
inductive Json
  | null
  | bool (b : Bool)
  | num (q : ℚ)
  | str (s : String)
  | arr (elems : List Json)
  | obj (entries : List (String × Json))
deriving Repr

mutual

/-- Models `json.dumps`.  The `indent=2` pretty-printing and string escaping of
the Python library are not reproduced character-for-character; the claims only
depend on a payload string being produced deterministically from the data. -/
def Json.dumps : Json → String
  | .null => "null"
  | .bool b => if b then "true" else "false"
  | .num q => toString q
  | .str s => "\x22" ++ s ++ "\x22"
  | .arr l => "[" ++ Json.dumpsList l ++ "]"
  | .obj l => "\x7b" ++ Json.dumpsObj l ++ "\x7d"

/-- Comma-separated rendering of a JSON array body. -/
def Json.dumpsList : List Json → String
  | [] => ""
  | [x] => Json.dumps x
  | x :: xs => Json.dumps x ++ ", " ++ Json.dumpsList xs

/-- Comma-separated rendering of a JSON object body. -/
def Json.dumpsObj : List (String × Json) → String
  | [] => ""
  | [(k, v)] => "\x22" ++ k ++ "\x22: " ++ Json.dumps v
  | (k, v) :: xs => "\x22" ++ k ++ "\x22: " ++ Json.dumps v ++ ", " ++ Json.dumpsObj xs

end

/-- Models Python list indexing `l[i]`, which raises `IndexError` when out of
range. -/
def pyGet {α : Type} (l : List α) (i : ℕ) : Except PyExn α :=
  match l.get? i with
  | some a => Except.ok a
  | Option.none => Except.error (.indexError "list index out of range")

/-- Models dict subscription `args[k]`, which raises `KeyError` when absent. -/
def pyGetKey (args : List (String × PyValue)) (k : String) : Except PyExn PyValue :=
  match args.lookup k with
  | some v => Except.ok v
  | Option.none => Except.error (.keyError k)

/-- Models `args.get(k, default)`. -/
def pyDictGet (args : List (String × PyValue)) (k : String) (dflt : PyValue) : PyValue :=
  (args.lookup k).getD dflt

/- ===================== utils.py ===================== -/

/-- A parsed ISO-8601 timestamp as produced by `dateutil.parser.isoparse`:
the wall-clock value in seconds together with the UTC offset (in seconds) of
its timezone, or no offset when the timestamp is timezone-naive. -/
structure Timestamp where
  naive : ℤ
  tzOffset : Option ℤ
deriving DecidableEq, Repr

/-- UTC normalisation performed in utils.py lines 189-193:
a naive timestamp gets `replace(tzinfo=timezone.utc)` (read as UTC), an aware
one gets `astimezone(timezone.utc)` (converted by subtracting its offset). -/
def Timestamp.toUtc (t : Timestamp) : ℤ :=
  match t.tzOffset with
  | Option.none => t.naive
  | some o => t.naive - o

/-- The loop of builtin `min`: scan the remaining items, replacing the current
best only on a strictly smaller key, so the first minimum wins. -/
def pyMinBy (f : ℕ → ℤ) : List ℕ → ℕ → ℕ
  | [], b => b
  | x :: xs, b => pyMinBy f xs (if f x < f b then x else b)

/-- Models `min(range(n), key=f)`: `range n` is `0 :: [1, ..., n-1]`, `min`
starts from the first element and folds `pyMinBy` over the rest; on an empty
range `min` raises `ValueError`, modelled as `none`. -/
def pyArgmin (f : ℕ → ℤ) (n : ℕ) : Option ℕ :=
  match n with
  | 0 => Option.none
  | m + 1 => some (pyMinBy f (List.range' 1 m) 0)

/-- Embeds `utils.get_closest_utc_index` (utils.py lines 179-195).  The current
UTC instant (`datetime.now(timezone.utc)`) is passed explicitly as `now`. -/
def get_closest_utc_index (hourly_times : List Timestamp) (now : ℤ) : Option ℕ :=
  pyArgmin (fun i => |((hourly_times.getD i ⟨0, Option.none⟩).toUtc) - now|) hourly_times.length

/-- Embeds the `weather_descriptions` dict of utils.py lines 198-227, as an
association list in the source insertion order. -/
def weather_descriptions : List (ℤ × String) :=
  [(0, "Clear sky"),
   (1, "Mainly clear"),
   (2, "Partly cloudy"),
   (3, "Overcast"),
   (45, "Fog"),
   (48, "Depositing rime fog"),
   (51, "Light drizzle"),
   (53, "Moderate drizzle"),
   (55, "Dense drizzle"),
   (56, "Light freezing drizzle"),
   (57, "Dense freezing drizzle"),
   (61, "Slight rain"),
   (63, "Moderate rain"),
   (65, "Heavy rain"),
   (66, "Light freezing rain"),
   (67, "Heavy freezing rain"),
   (71, "Slight snow fall"),
   (73, "Moderate snow fall"),
   (75, "Heavy snow fall"),
   (77, "Snow grains"),
   (80, "Slight rain showers"),
   (81, "Moderate rain showers"),
   (82, "Violent rain showers"),
   (85, "Slight snow showers"),
   (86, "Heavy snow showers"),
   (95, "Thunderstorm"),
   (96, "Thunderstorm with slight hail"),
   (99, "Thunderstorm with heavy hail")]

/-- Models `utils.weather_descriptions.get(code, "Unknown weather condition")`
as used in weather_service.py lines 112-115 and 197-199. -/
def weatherDescriptionOf (code : ℤ) : String :=
  (weather_descriptions.lookup code).getD "Unknown weather condition"

/-- A timezone as delivered by `ZoneInfo`, restricted to the facts the code
reads at the single instant involved in a request: its UTC offset, its DST
delta and its abbreviation. -/
structure Tz where
  name : String
  offsetSeconds : ℤ
  dstSeconds : Option ℤ
  tzAbbrev : String
deriving DecidableEq, Repr

/-- Embeds `utils.get_zoneinfo`: a failing `ZoneInfo` construction (oracle
`zi` returns the underlying exception text) is rewrapped as
`McpError("Invalid timezone: " + str(e))`. -/
def get_zoneinfo (zi : String → Except String Tz) (timezone_name : String) : Except PyExn Tz :=
  match zi timezone_name with
  | .ok t => Except.ok t
  | .error m => Except.error (.mcpError ("Invalid timezone: " ++ m))

/-- An aware datetime: the absolute instant in UTC seconds plus the attached
timezone. -/
structure PyDateTime where
  utcSecs : ℤ
  tz : Tz
deriving Repr

/-- Models `datetime.utcoffset()` in seconds (total_seconds of the timedelta). -/
def PyDateTime.utcoffsetSeconds (d : PyDateTime) : ℤ := d.tz.offsetSeconds

/-- Models `datetime.astimezone(tz)`: same instant, new timezone. -/
def PyDateTime.astimezone (d : PyDateTime) (t : Tz) : PyDateTime := ⟨d.utcSecs, t⟩

/-- Models stdlib `datetime.isoformat(timespec="seconds")` abstractly: a
deterministic rendering of the local wall-clock seconds and zone name.  The
exact character layout of the stdlib is external and not reproduced; no claim
depends on it. -/
def PyDateTime.isoformatSeconds (d : PyDateTime) : String :=
  toString (d.utcSecs + d.tz.offsetSeconds) ++ "@" ++ d.tz.name

/-- The `TimeResult` pydantic model of utils.py lines 11-13. -/
structure TimeResult where
  timezone : String
  datetime : String
deriving DecidableEq, Repr

/-- Models `json.dumps(time_result.model_dump())` payload structure. -/
def TimeResult.toJson (r : TimeResult) : Json :=
  Json.obj [("timezone", Json.str r.timezone), ("datetime", Json.str r.datetime)]

/- ===================== tools/toolhandler.py ===================== -/

/-- Embeds `ToolHandler.validate_required_args` (toolhandler.py lines 65-78):
collects every required field absent from the argument keys and raises a
single `RuntimeError` naming all of them, comma-joined, in declaration order. -/
def validate_required_args (argKeys : List String) (required_fields : List String) :
    Except PyExn Unit :=
  let missing_fields := required_fields.filter (fun f => !(argKeys.contains f))
  if missing_fields.isEmpty then Except.ok ()
  else Except.error (.runtimeError
    ("Missing required arguments: " ++ String.intercalate ", " missing_fields))

/- ===================== tools/weather_service.py ===================== -/

/-- One element of the geocoding response `results` array; the options model
the presence of the `latitude` / `longitude` keys read on line 55. -/
structure GeoResult where
  latitude? : Option ℚ
  longitude? : Option ℚ
deriving DecidableEq, Repr

/-- A geocoding HTTP response: status code plus the optional `results` array
(`none` models the `results` key being absent from the JSON body). -/
structure GeoResponse where
  status : ℕ
  results? : Option (List GeoResult)
deriving DecidableEq, Repr

/-- Embeds `WeatherService.get_coordinates` (weather_service.py lines 30-60).
The oracle `geoFetch` supplies the HTTP outcome: `.error m` models
`httpx.RequestError` with message `m`, `.ok resp` a completed response. -/
def get_coordinates (city : String) (geoFetch : Except String GeoResponse) :
    Except PyExn (ℚ × ℚ) :=
  match geoFetch with
  | .error netMsg =>
      Except.error (.valueError
        ("Network error while fetching coordinates for " ++ city ++ ": " ++ netMsg))
  | .ok resp =>
      if resp.status ≠ 200 then
        Except.error (.valueError ("Geocoding API returned status " ++ toString resp.status))
      else
        match resp.results? with
        | Option.none => Except.error (.valueError ("No coordinates found for city: " ++ city))
        | some [] => Except.error (.valueError ("No coordinates found for city: " ++ city))
        | some (r :: _) =>
            match r.latitude?, r.longitude? with
            | some la, some lo => Except.ok (la, lo)
            | Option.none, _ =>
                Except.error (.valueError
                  ("Invalid response format from geocoding API: \x27latitude\x27"))
            | some _, Option.none =>
                Except.error (.valueError
                  ("Invalid response format from geocoding API: \x27longitude\x27"))

/-- A raw hourly time entry: the ISO string from the response together with
its parsed value (`dateutil.parser.isoparse` is external; the model couples
each raw string with the timestamp the parser yields for it). -/
structure IsoTime where
  raw : String
  parsed : Timestamp
deriving DecidableEq, Repr

/-- The `hourly` object of a forecast response, with the arrays the code
requests.  Key presence of the individual arrays is assumed (the code would
raise `KeyError` otherwise); array lengths are not constrained, so the
`IndexError` paths remain representable. -/
structure HourlyData where
  time : List IsoTime
  temperature_2m : List ℚ
  relative_humidity_2m : List ℚ
  dew_point_2m : List ℚ
  weather_code : List ℤ
  wind_speed_10m : List ℚ
  wind_direction_10m : List ℚ
  wind_gusts_10m : List ℚ
  precipitation : List ℚ
  rain : List ℚ
  snowfall : List ℚ
  precipitation_probability : List ℚ
  pressure_msl : List ℚ
  cloud_cover : List ℚ
  uv_index : List ℚ
  apparent_temperature : List ℚ
  visibility : List ℚ
deriving DecidableEq, Repr

/-- A forecast HTTP response: status code plus the optional `hourly` object
(`none` models the `hourly` key being absent, the `KeyError` path). -/
structure WeatherApiResponse where
  status : ℕ
  hourly? : Option HourlyData
deriving DecidableEq, Repr

/-- The current-weather dictionary built by
`WeatherService.get_current_weather` (weather_service.py lines 103-132). -/
structure Weather where
  city : String
  latitude : ℚ
  longitude : ℚ
  time : String
  temperature_c : ℚ
  relative_humidity_percent : ℚ
  dew_point_c : ℚ
  weather_code : ℤ
  weather_description : String
  wind_speed_kmh : ℚ
  wind_direction_degrees : ℚ
  wind_gusts_kmh : ℚ
  precipitation_mm : ℚ
  rain_mm : ℚ
  snowfall_cm : ℚ
  precipitation_probability_percent : ℚ
  pressure_hpa : ℚ
  cloud_cover_percent : ℚ
  uv_index : ℚ
  apparent_temperature_c : ℚ
  visibility_m : ℚ
deriving DecidableEq, Repr

/-- Embeds the `try` body of `WeatherService.get_current_weather`
(weather_service.py lines 75-134).  Oracles: `geoFetch` for the geocoding
call, `weatherFetch` for the forecast call (`.error` = `httpx.RequestError`),
`now` for the current UTC instant used by `get_closest_utc_index`. -/
def get_current_weather_body (city : String)
    (geoFetch : Except String GeoResponse)
    (weatherFetch : Except String WeatherApiResponse)
    (now : ℤ) : Except PyExn Weather := do
    let (la, lo) ← get_coordinates city geoFetch
    let resp ← match weatherFetch with
      | .error m => Except.error (.requestError m)
      | .ok r => Except.ok r
    if resp.status ≠ 200 then
      Except.error (.valueError ("Weather API returned status " ++ toString resp.status))
    else do
    let hourly ← match resp.hourly? with
      | Option.none => Except.error (.keyError "hourly")
      | some h => Except.ok h
    let current_index ← match get_closest_utc_index (hourly.time.map (·.parsed)) now with
      | Option.none => Except.error (.valueError "min() arg is an empty sequence")
      | some i => Except.ok i
    let t ← pyGet hourly.time current_index
    let temp ← pyGet hourly.temperature_2m current_index
    let hum ← pyGet hourly.relative_humidity_2m current_index
    let dew ← pyGet hourly.dew_point_2m current_index
    let wcode ← pyGet hourly.weather_code current_index
    let wspd ← pyGet hourly.wind_speed_10m current_index
    let wdir ← pyGet hourly.wind_direction_10m current_index
    let wgst ← pyGet hourly.wind_gusts_10m current_index
    let prcp ← pyGet hourly.precipitation current_index
    let rainv ← pyGet hourly.rain current_index
    let snow ← pyGet hourly.snowfall current_index
    let prob ← pyGet hourly.precipitation_probability current_index
    let pres ← pyGet hourly.pressure_msl current_index
    let cldc ← pyGet hourly.cloud_cover current_index
    let uv ← pyGet hourly.uv_index current_index
    let appt ← pyGet hourly.apparent_temperature current_index
    let vis ← pyGet hourly.visibility current_index
    Except.ok
      { city := city
        latitude := la
        longitude := lo
        time := t.raw
        temperature_c := temp
        relative_humidity_percent := hum
        dew_point_c := dew
        weather_code := wcode
        weather_description := weatherDescriptionOf wcode
        wind_speed_kmh := wspd
        wind_direction_degrees := wdir
        wind_gusts_kmh := wgst
        precipitation_mm := prcp
        rain_mm := rainv
        snowfall_cm := snow
        precipitation_probability_percent := prob
        pressure_hpa := pres
        cloud_cover_percent := cldc
        uv_index := uv
        apparent_temperature_c := appt
        visibility_m := vis }

/-- The `try`/`except` wrapper of `get_current_weather` (weather_service.py
lines 75 and 136-139) around the body above. -/
def get_current_weather (city : String)
    (geoFetch : Except String GeoResponse)
    (weatherFetch : Except String WeatherApiResponse)
    (now : ℤ) : Except PyExn Weather :=
  match get_current_weather_body city geoFetch weatherFetch now with
  | .error (.requestError m) =>
      Except.error (.valueError
        ("Network error while fetching weather for " ++ city ++ ": " ++ m))
  | .error (.keyError k) =>
      Except.error (.valueError
        ("Invalid response format from weather API: \x27" ++ k ++ "\x27"))
  | .error (.indexError m) =>
      Except.error (.valueError ("Invalid response format from weather API: " ++ m))
  | other => other

/-- One element of the `weather_data` array built by
`WeatherService.get_weather_by_date_range` (weather_service.py lines 191-212). -/
structure RangeItem where
  time : String
  temperature_c : ℚ
  humidity_percent : ℚ
  dew_point_c : ℚ
  weather_code : ℤ
  weather_description : String
  wind_speed_kmh : ℚ
  wind_direction_degrees : ℚ
  wind_gusts_kmh : ℚ
  precipitation_mm : ℚ
  rain_mm : ℚ
  snowfall_cm : ℚ
  precipitation_probability_percent : ℚ
  pressure_hpa : ℚ
  cloud_cover_percent : ℚ
  uv_index : ℚ
  apparent_temperature_c : ℚ
  visibility_m : ℚ
deriving DecidableEq, Repr

/-- The dictionary returned by `get_weather_by_date_range` (lines 214-221). -/
structure WeatherRange where
  city : String
  latitude : ℚ
  longitude : ℚ
  start_date : String
  end_date : String
  weather_data : List RangeItem
deriving DecidableEq, Repr

/-- Embeds `WeatherService.get_weather_by_date_range` (weather_service.py
lines 141-226), with the same oracle conventions as `get_current_weather`. -/
def get_weather_by_date_range (city start_date end_date : String)
    (geoFetch : Except String GeoResponse)
    (rangeFetch : Except String WeatherApiResponse) : Except PyExn WeatherRange :=
  let body : Except PyExn WeatherRange := do
    let (la, lo) ← get_coordinates city geoFetch
    let resp ← match rangeFetch with
      | .error m => Except.error (.requestError m)
      | .ok r => Except.ok r
    if resp.status ≠ 200 then
      Except.error (.valueError ("Weather API returned status " ++ toString resp.status))
    else do
    let hourly ← match resp.hourly? with
      | Option.none => Except.error (.keyError "hourly")
      | some h => Except.ok h
    let data_length := hourly.time.length
    let items ← (List.range data_length).mapM (fun i => do
      let t ← pyGet hourly.time i
      let temp ← pyGet hourly.temperature_2m i
      let hum ← pyGet hourly.relative_humidity_2m i
      let dew ← pyGet hourly.dew_point_2m i
      let wcode ← pyGet hourly.weather_code i
      let wspd ← pyGet hourly.wind_speed_10m i
      let wdir ← pyGet hourly.wind_direction_10m i
      let wgst ← pyGet hourly.wind_gusts_10m i
      let prcp ← pyGet hourly.precipitation i
      let rainv ← pyGet hourly.rain i
      let snow ← pyGet hourly.snowfall i
      let prob ← pyGet hourly.precipitation_probability i
      let pres ← pyGet hourly.pressure_msl i
      let cldc ← pyGet hourly.cloud_cover i
      let uv ← pyGet hourly.uv_index i
      let appt ← pyGet hourly.apparent_temperature i
      let vis ← pyGet hourly.visibility i
      Except.ok
        { time := t.raw
          temperature_c := temp
          humidity_percent := hum
          dew_point_c := dew
          weather_code := wcode
          weather_description := weatherDescriptionOf wcode
          wind_speed_kmh := wspd
          wind_direction_degrees := wdir
          wind_gusts_kmh := wgst
          precipitation_mm := prcp
          rain_mm := rainv
          snowfall_cm := snow
          precipitation_probability_percent := prob
          pressure_hpa := pres
          cloud_cover_percent := cldc
          uv_index := uv
          apparent_temperature_c := appt
          visibility_m := vis })
    Except.ok
      { city := city
        latitude := la
        longitude := lo
        start_date := start_date
        end_date := end_date
        weather_data := items }
  match body with
  | .error (.requestError m) =>
      Except.error (.valueError
        ("Network error while fetching weather for " ++ city ++ ": " ++ m))
  | .error (.keyError k) =>
      Except.error (.valueError
        ("Invalid response format from weather API: \x27" ++ k ++ "\x27"))
  | .error (.indexError m) =>
      Except.error (.valueError ("Invalid response format from weather API: " ++ m))
  | other => other

/-- Models Python builtin `round` on a rational: round half to even. -/
def pyRound (q : ℚ) : ℤ :=
  let f : ℤ := ⌊q⌋
  let r : ℚ := q - (f : ℚ)
  if r < 1/2 then f
  else if 1/2 < r then f + 1
  else if f % 2 = 0 then f else f + 1

/-- Embeds `WeatherService._degrees_to_compass` (weather_service.py lines
305-318): index `round(degrees / 22.5) % 16` into the 16-point table.  The
index is always in range, so the default of `getD` is never consulted. -/
def _degrees_to_compass (degrees : ℚ) : String :=
  let directions := ["N", "NNE", "NE", "ENE", "E", "ESE", "SE", "SSE",
                     "S", "SSW", "SW", "WSW", "W", "WNW", "NW", "NNW"]
  let index := (pyRound (degrees / 22.5)).emod 16
  directions.getD index.toNat ""

/-- Embeds `WeatherService._get_uv_warning` (weather_service.py lines 320-339). -/
def _get_uv_warning (uv_index : ℚ) : String :=
  if uv_index < 3 then "Low"
  else if uv_index < 6 then "Moderate"
  else if uv_index < 8 then "High"
  else if uv_index < 11 then "Very High"
  else "Extreme"

/-- Rendering of a rational where Python interpolates a float into an
f-string; the exact float repr of Python is not reproduced. -/
def qstr (q : ℚ) : String := toString q

/-- Models the `:.1f` one-decimal format: scale, round half to even, print. -/
def fmt1 (q : ℚ) : String :=
  let n : ℤ := pyRound (q * 10)
  toString (n / 10) ++ "." ++ toString ((n % 10).natAbs)

/-- Embeds `WeatherService.format_current_weather_response`
(weather_service.py lines 228-291).  The `.get(..., default)` accesses in the
source always find their key because `get_current_weather` populates every
field, so the record fields are read directly. -/
def format_current_weather_response (w : Weather) : String :=
  let temp := w.temperature_c
  let feels_like := w.apparent_temperature_c
  let temp_text := "temperature of " ++ qstr temp ++ "°C" ++
    (if 2 < |feels_like - temp| then " (feels like " ++ qstr feels_like ++ "°C)" else "")
  let wind_dir := _degrees_to_compass w.wind_direction_degrees
  let base1 :=
    "The weather in " ++ w.city ++ " is " ++ w.weather_description ++
    " with a " ++ temp_text ++ ", relative humidity at " ++ qstr w.relative_humidity_percent ++
    "%, and dew point at " ++ qstr w.dew_point_c ++ "°C. Wind is blowing from the " ++
    wind_dir ++ " at " ++ qstr w.wind_speed_kmh ++ " km/h with gusts up to " ++
    qstr w.wind_gusts_kmh ++ " km/h."
  let base2 := base1 ++
    (if 0 < w.precipitation_mm ∨ 20 < w.precipitation_probability_percent then
      (if 0 < w.snowfall_cm then " Snowfall of " ++ qstr w.snowfall_cm ++ " cm is occurring."
       else if 0 < w.rain_mm then " Rainfall of " ++ qstr w.rain_mm ++ " mm is occurring."
       else "") ++
      (if 0 < w.precipitation_probability_percent then
        " Precipitation probability is " ++ qstr w.precipitation_probability_percent ++ "%."
       else "")
     else "")
  let base3 := base2 ++ " Atmospheric pressure is " ++ qstr w.pressure_hpa ++
    " hPa with " ++ qstr w.cloud_cover_percent ++ "% cloud cover."
  let base4 := base3 ++
    (if 3 < w.uv_index then
      " UV index is " ++ fmt1 w.uv_index ++ " (" ++ _get_uv_warning w.uv_index ++ ")."
     else "")
  base4 ++
    (if 0 < w.visibility_m then " Visibility is " ++ fmt1 (w.visibility_m / 1000) ++ " km."
     else "")

/- ===================== tools/air_quality_service.py ===================== -/

/-- The `hourly` object of an air-quality response: the `time` array plus the
remaining pollutant entries in insertion order (none of them named "time"),
kept as raw JSON values so that the `isinstance(values, list)` check of
`get_current_air_quality_index` is representable. -/
structure AqHourly where
  time : List IsoTime
  pollutants : List (String × Json)
deriving Repr

/-- An air-quality response body (`response.json()`); `none` for `hourly?`
models the `hourly` key being absent. -/
structure AqData where
  hourly? : Option AqHourly
deriving Repr

/-- JSON rendering of the air-quality body, used where the code passes
`full_data` into `json.dumps`. -/
def AqData.toJson (aq : AqData) : Json :=
  match aq.hourly? with
  | Option.none => Json.obj []
  | some h =>
      Json.obj [("hourly", Json.obj
        (("time", Json.arr (h.time.map (fun t => Json.str t.raw))) :: h.pollutants))]

/-- Embeds `AirQualityService.get_air_quality` (air_quality_service.py lines
28-74).  The oracle `fetch` supplies the HTTP outcome: `.error m` models
`httpx.RequestError`, `.ok (status, data)` a completed response.  The
`hourly_vars` parameter only shapes the request URL and is not modelled. -/
def get_air_quality (fetch : Except String (ℕ × AqData)) : Except PyExn AqData :=
  match fetch with
  | .error m =>
      Except.error (.valueError ("Network error while fetching air quality data: " ++ m))
  | .ok (status, data) =>
      if status ≠ 200 then
        Except.error (.valueError ("Air Quality API returned status " ++ toString status))
      else Except.ok data

/-- The `current_aq` dictionary built by `get_current_air_quality_index`:
the `time` entry followed by one entry per pollutant list long enough. -/
structure CurrentAq where
  time : String
  values : List (String × Json)
deriving Repr

/-- JSON rendering of the current air quality dictionary. -/
def CurrentAq.toJson (c : CurrentAq) : Json :=
  Json.obj (("time", Json.str c.time) :: c.values)

/-- Embeds `AirQualityService.get_current_air_quality_index`
(air_quality_service.py lines 76-99): selects the closest hour and then keeps,
for every non-`time` key whose value is a list longer than the index, the
element at that index. -/
def get_current_air_quality_index (aq : AqData) (now : ℤ) : Except PyExn CurrentAq := do
  let hourly ← match aq.hourly? with
    | Option.none => Except.error (.keyError "hourly")
    | some h => Except.ok h
  let current_index ← match get_closest_utc_index (hourly.time.map (·.parsed)) now with
    | Option.none => Except.error (.valueError "min() arg is an empty sequence")
    | some i => Except.ok i
  let t ← pyGet hourly.time current_index
  Except.ok
    { time := t.raw
      values := hourly.pollutants.filterMap (fun kv =>
        match kv.2 with
        | Json.arr l =>
            if kv.1 ≠ "time" ∧ current_index < l.length then
              some (kv.1, l.getD current_index Json.null)
            else Option.none
        | _ => Option.none) }

/-- Embeds `AirQualityService._get_pm25_level` (air_quality_service.py lines
192-213): WHO-guideline banding of a PM2.5 concentration in μg/m³. -/
def _get_pm25_level (pm25 : ℚ) : String :=
  if pm25 ≤ 12 then "Good"
  else if pm25 ≤ 35 then "Moderate"
  else if pm25 ≤ 55 then "Unhealthy for Sensitive Groups"
  else if pm25 ≤ 150 then "Unhealthy"
  else if pm25 ≤ 250 then "Very Unhealthy"
  else "Hazardous"

/-- Embeds `AirQualityService._get_pm10_level` (air_quality_service.py lines
215-236). -/
def _get_pm10_level (pm10 : ℚ) : String :=
  if pm10 ≤ 54 then "Good"
  else if pm10 ≤ 154 then "Moderate"
  else if pm10 ≤ 254 then "Unhealthy for Sensitive Groups"
  else if pm10 ≤ 354 then "Unhealthy"
  else if pm10 ≤ 424 then "Very Unhealthy"
  else "Hazardous"

/- ===================== formatter templates of utils.py ===================== -/

/-- Opening part of the `format_get_weather_bytime` template (utils.py lines
32-80), up to the interpolated JSON payload.  The descriptive prose between
the section markers is summarised rather than copied verbatim; no claim
depends on the template wording, only on the payload embedding. -/
def weatherTemplateHead : String :=
  "\nPlease analyze the following JSON weather forecast information and generate a comprehensive report.\n\n=== FIELD DESCRIPTIONS ===\n(field glossary for city, latitude, longitude, start_date, end_date and the hourly weather_data entries)\n\n=== WEATHER DATA ===\n"

/-- Closing part of the `format_get_weather_bytime` template (utils.py lines
82-90). -/
def weatherTemplateTail : String :=
  "\n\n=== ANALYSIS INSTRUCTIONS ===\n(requested analysis: trends, notable events, temperature patterns, precipitation, wind, warnings)\n        "

/-- Embeds `utils.format_get_weather_bytime` (utils.py lines 22-90): the fixed
template with `json.dumps(data_result)` interpolated. -/
def format_get_weather_bytime (data_result : Json) : String :=
  weatherTemplateHead ++ Json.dumps data_result ++ weatherTemplateTail

/-- Opening part of the `format_air_quality_data` template (utils.py lines
102-166), up to the interpolated JSON payload. -/
def aqTemplateHead : String :=
  "\nPlease analyze the following JSON air quality information and generate a comprehensive report.\n\n=== FIELD DESCRIPTIONS ===\n(field glossary for pollutant concentrations and health guidelines)\n\n=== AIR QUALITY DATA ===\n"

/-- Closing part of the `format_air_quality_data` template (utils.py lines
168-177). -/
def aqTemplateTail : String :=
  "\n\n=== ANALYSIS INSTRUCTIONS ===\n(requested analysis: overall assessment, pollutants of concern, health recommendations)\n        "

/-- Embeds `utils.format_air_quality_data` (utils.py lines 92-177). -/
def format_air_quality_data (data_result : Json) : String :=
  aqTemplateHead ++ Json.dumps data_result ++ aqTemplateTail

/- ===================== JSON rendering of service records ===================== -/

/-- The key/value sequence of the current-weather dictionary in its insertion
order (weather_service.py lines 103-132), used by `json.dumps(weather_data)`
in the details tool. -/
def Weather.toJsonFields (w : Weather) : List (String × Json) :=
  [("city", Json.str w.city),
   ("latitude", Json.num w.latitude),
   ("longitude", Json.num w.longitude),
   ("time", Json.str w.time),
   ("temperature_c", Json.num w.temperature_c),
   ("relative_humidity_percent", Json.num w.relative_humidity_percent),
   ("dew_point_c", Json.num w.dew_point_c),
   ("weather_code", Json.num (w.weather_code : ℚ)),
   ("weather_description", Json.str w.weather_description),
   ("wind_speed_kmh", Json.num w.wind_speed_kmh),
   ("wind_direction_degrees", Json.num w.wind_direction_degrees),
   ("wind_gusts_kmh", Json.num w.wind_gusts_kmh),
   ("precipitation_mm", Json.num w.precipitation_mm),
   ("rain_mm", Json.num w.rain_mm),
   ("snowfall_cm", Json.num w.snowfall_cm),
   ("precipitation_probability_percent", Json.num w.precipitation_probability_percent),
   ("pressure_hpa", Json.num w.pressure_hpa),
   ("cloud_cover_percent", Json.num w.cloud_cover_percent),
   ("uv_index", Json.num w.uv_index),
   ("apparent_temperature_c", Json.num w.apparent_temperature_c),
   ("visibility_m", Json.num w.visibility_m)]

/-- JSON rendering of one hourly range entry (weather_service.py lines
191-212), in insertion order. -/
def RangeItem.toJson (it : RangeItem) : Json :=
  Json.obj
    [("time", Json.str it.time),
     ("temperature_c", Json.num it.temperature_c),
     ("humidity_percent", Json.num it.humidity_percent),
     ("dew_point_c", Json.num it.dew_point_c),
     ("weather_code", Json.num (it.weather_code : ℚ)),
     ("weather_description", Json.str it.weather_description),
     ("wind_speed_kmh", Json.num it.wind_speed_kmh),
     ("wind_direction_degrees", Json.num it.wind_direction_degrees),
     ("wind_gusts_kmh", Json.num it.wind_gusts_kmh),
     ("precipitation_mm", Json.num it.precipitation_mm),
     ("rain_mm", Json.num it.rain_mm),
     ("snowfall_cm", Json.num it.snowfall_cm),
     ("precipitation_probability_percent", Json.num it.precipitation_probability_percent),
     ("pressure_hpa", Json.num it.pressure_hpa),
     ("cloud_cover_percent", Json.num it.cloud_cover_percent),
     ("uv_index", Json.num it.uv_index),
     ("apparent_temperature_c", Json.num it.apparent_temperature_c),
     ("visibility_m", Json.num it.visibility_m)]

/-- JSON rendering of the date-range dictionary (weather_service.py lines
214-221). -/
def WeatherRange.toJson (wr : WeatherRange) : Json :=
  Json.obj
    [("city", Json.str wr.city),
     ("latitude", Json.num wr.latitude),
     ("longitude", Json.num wr.longitude),
     ("start_date", Json.str wr.start_date),
     ("end_date", Json.str wr.end_date),
     ("weather_data", Json.arr (wr.weather_data.map RangeItem.toJson))]

/- ===================== tool handler boilerplate ===================== -/

/-- Keys of an argument mapping, as tested by `field not in args`. -/
def argKeys (entries : List (String × PyValue)) : List String :=
  entries.map Prod.fst

/-- Models `str.lower()` on the characters of the string; kernel-friendly
variant of character-wise lowercasing. -/
def pyLower (s : String) : String := ⟨s.data.map Char.toLower⟩

/-- Models an attribute access that requires a `str` (such as
`datetime_str.lower()`): any non-string raises `AttributeError`. -/
def PyValue.asStr : PyValue → Except PyExn String
  | .str s => Except.ok s
  | _ => Except.error (.attributeError "value has no attribute \x27lower\x27")

/-- The `try`/`except ValueError`/`except Exception` frame shared by the
weather and air-quality summary handlers: the successful body text, an
expected failure as `"Error: " + str(e)`, anything else as
`"Unexpected error occurred: " + str(e)` — each as one `TextContent`. -/
def wrapSummaryHandler (body : Except PyExn String) : List Content :=
  match body with
  | .ok s => [Content.text s]
  | .error (.valueError m) => [Content.text ("Error: " ++ m)]
  | .error e => [Content.text ("Unexpected error occurred: " ++ e.msg)]

/-- The `try`/`except ValueError`/`except Exception` frame shared by the two
details handlers, whose error paths serialise `{"error": ...}` via
`json.dumps` — each branch one `TextContent`. -/
def wrapDetailsHandler (body : Except PyExn Json) : List Content :=
  match body with
  | .ok j => [Content.text (Json.dumps j)]
  | .error (.valueError m) =>
      [Content.text (Json.dumps (Json.obj [("error", Json.str m)]))]
  | .error e =>
      [Content.text (Json.dumps (Json.obj
        [("error", Json.str ("Unexpected error occurred: " ++ e.msg))]))]

/-- The single `try`/`except Exception` frame of the three time handlers:
any failure becomes one `TextContent` with the given message prelude. -/
def wrapTimeHandler (body : Except PyExn String) (errHead : String) : List Content :=
  match body with
  | .ok s => [Content.text s]
  | .error e => [Content.text (errHead ++ e.msg)]

/- ===================== tools/tools_weather.py ===================== -/

/-- Body of `GetCurrentWeatherToolHandler.run_tool` (tools_weather.py lines
46-67) inside its `try`: validate, fetch, format. -/
def get_current_weather_try (args : List (String × PyValue))
    (geoFetch : Except String GeoResponse)
    (weatherFetch : Except String WeatherApiResponse)
    (now : ℤ) : Except PyExn String := do
  let _ ← validate_required_args (argKeys args) ["city"]
  let cityV ← pyGetKey args "city"
  let city := cityV.toStr
  let weather_data ← get_current_weather city geoFetch weatherFetch now
  Except.ok (format_current_weather_response weather_data)

/-- Embeds `GetCurrentWeatherToolHandler.run_tool` (tools_weather.py lines
46-84). -/
def get_current_weather_run (args : List (String × PyValue))
    (geoFetch : Except String GeoResponse)
    (weatherFetch : Except String WeatherApiResponse)
    (now : ℤ) : List Content :=
  wrapSummaryHandler (get_current_weather_try args geoFetch weatherFetch now)

/-- Body of `GetWeatherByDateRangeToolHandler.run_tool` (tools_weather.py
lines 123-149) inside its `try`. -/
def get_weather_byDateTimeRange_try (args : List (String × PyValue))
    (geoFetch : Except String GeoResponse)
    (rangeFetch : Except String WeatherApiResponse) : Except PyExn String := do
  let _ ← validate_required_args (argKeys args) ["city", "start_date", "end_date"]
  let cityV ← pyGetKey args "city"
  let startV ← pyGetKey args "start_date"
  let endV ← pyGetKey args "end_date"
  let weather_data ← get_weather_by_date_range
    cityV.toStr startV.toStr endV.toStr geoFetch rangeFetch
  Except.ok (format_get_weather_bytime weather_data.toJson)

/-- Embeds `GetWeatherByDateRangeToolHandler.run_tool` (tools_weather.py
lines 123-166). -/
def get_weather_byDateTimeRange_run (args : List (String × PyValue))
    (geoFetch : Except String GeoResponse)
    (rangeFetch : Except String WeatherApiResponse) : List Content :=
  wrapSummaryHandler (get_weather_byDateTimeRange_try args geoFetch rangeFetch)

/-- Body of `GetWeatherDetailsToolHandler.run_tool` (tools_weather.py lines
204-236) inside its `try`: the current weather dictionary, extended with a
`forecast` key when `include_forecast` is truthy.  `today` and `tomorrow` are
the `strftime` renderings of the local clock; the second geocoding call of the
forecast branch has its own oracle. -/
def get_weather_details_try (args : List (String × PyValue))
    (geoFetch : Except String GeoResponse)
    (weatherFetch : Except String WeatherApiResponse)
    (now : ℤ) (today tomorrow : String)
    (geoFetch2 : Except String GeoResponse)
    (rangeFetch : Except String WeatherApiResponse) : Except PyExn Json := do
  let _ ← validate_required_args (argKeys args) ["city"]
  let cityV ← pyGetKey args "city"
  let city := cityV.toStr
  let include_forecast := (pyDictGet args "include_forecast" (PyValue.bool false)).truthy
  let weather_data ← get_current_weather city geoFetch weatherFetch now
  if include_forecast then do
    let forecast_data ← get_weather_by_date_range city today tomorrow geoFetch2 rangeFetch
    Except.ok (Json.obj (weather_data.toJsonFields ++
      [("forecast", Json.arr (forecast_data.weather_data.map RangeItem.toJson))]))
  else
    Except.ok (Json.obj weather_data.toJsonFields)

/-- Embeds `GetWeatherDetailsToolHandler.run_tool` (tools_weather.py lines
204-253). -/
def get_weather_details_run (args : List (String × PyValue))
    (geoFetch : Except String GeoResponse)
    (weatherFetch : Except String WeatherApiResponse)
    (now : ℤ) (today tomorrow : String)
    (geoFetch2 : Except String GeoResponse)
    (rangeFetch : Except String WeatherApiResponse) : List Content :=
  wrapDetailsHandler
    (get_weather_details_try args geoFetch weatherFetch now today tomorrow geoFetch2 rangeFetch)

/- ===================== tools/tools_time.py ===================== -/

/-- Body of `GetCurrentDateTimeToolHandler.run_tool` (tools_time.py lines
44-69) inside its `try`: resolve the zone, read the clock, serialise a
`TimeResult`. -/
def get_current_datetime_try (args : List (String × PyValue))
    (zi : String → Except String Tz) (now : ℤ) : Except PyExn String := do
  let _ ← validate_required_args (argKeys args) ["timezone_name"]
  let tzV ← pyGetKey args "timezone_name"
  let timezone_name := tzV.toStr
  let timezone ← get_zoneinfo zi timezone_name
  let current_time : PyDateTime := ⟨now, timezone⟩
  let time_result : TimeResult :=
    { timezone := timezone_name, datetime := current_time.isoformatSeconds }
  Except.ok (Json.dumps time_result.toJson)

/-- Embeds `GetCurrentDateTimeToolHandler.run_tool` (tools_time.py lines
44-78). -/
def get_current_datetime_run (args : List (String × PyValue))
    (zi : String → Except String Tz) (now : ℤ) : List Content :=
  wrapTimeHandler (get_current_datetime_try args zi now) "Error getting current time: "

/-- The `timezone_info` dictionary of `GetTimeZoneInfoToolHandler.run_tool`
(tools_time.py lines 127-134). -/
structure TimezoneInfo where
  timezone_name : String
  current_local_time : String
  current_utc_time : String
  utc_offset_hours : ℚ
  is_dst : Bool
  timezone_abbreviation : String
deriving DecidableEq, Repr

/-- JSON rendering of the timezone info dictionary, in insertion order. -/
def TimezoneInfo.toJson (t : TimezoneInfo) : Json :=
  Json.obj
    [("timezone_name", Json.str t.timezone_name),
     ("current_local_time", Json.str t.current_local_time),
     ("current_utc_time", Json.str t.current_utc_time),
     ("utc_offset_hours", Json.num t.utc_offset_hours),
     ("is_dst", Json.bool t.is_dst),
     ("timezone_abbreviation", Json.str t.timezone_abbreviation)]

/-- Body of `GetTimeZoneInfoToolHandler.run_tool` (tools_time.py lines
108-141) inside its `try`.  `utcoffset()` of a `ZoneInfo`-attached datetime is
never `None`, and a zero offset makes the `if offset else 0` branch produce
the same value, so `utc_offset_hours` is the offset divided by 3600 in every
case.  `datetime.utcnow()` is naive; its rendering is modelled as the bare
second count. -/
def get_timezone_info_try (args : List (String × PyValue))
    (zi : String → Except String Tz) (now utcNow : ℤ) : Except PyExn String := do
  let _ ← validate_required_args (argKeys args) ["timezone_name"]
  let tzV ← pyGetKey args "timezone_name"
  let timezone_name := tzV.toStr
  let timezone ← get_zoneinfo zi timezone_name
  let current_time : PyDateTime := ⟨now, timezone⟩
  let offset_hours : ℚ := (timezone.offsetSeconds : ℚ) / 3600
  let timezone_info : TimezoneInfo :=
    { timezone_name := timezone_name
      current_local_time := current_time.isoformatSeconds
      current_utc_time := toString utcNow
      utc_offset_hours := offset_hours
      is_dst := match timezone.dstSeconds with
        | Option.none => false
        | some d => decide (0 < d)
      timezone_abbreviation := timezone.tzAbbrev }
  Except.ok (Json.dumps timezone_info.toJson)

/-- Embeds `GetTimeZoneInfoToolHandler.run_tool` (tools_time.py lines
108-150). -/
def get_timezone_info_run (args : List (String × PyValue))
    (zi : String → Except String Tz) (now utcNow : ℤ) : List Content :=
  wrapTimeHandler (get_timezone_info_try args zi now utcNow) "Error getting timezone info: "

/-- The `conversion_result` dictionary of `ConvertTimeToolHandler.run_tool`
(tools_time.py lines 222-228). -/
structure ConversionResult where
  original_datetime : String
  original_timezone : String
  converted_datetime : String
  converted_timezone : String
  time_difference_hours : ℚ
deriving DecidableEq, Repr

/-- JSON rendering of the conversion result dictionary, in insertion order. -/
def ConversionResult.toJson (c : ConversionResult) : Json :=
  Json.obj
    [("original_datetime", Json.str c.original_datetime),
     ("original_timezone", Json.str c.original_timezone),
     ("converted_datetime", Json.str c.converted_datetime),
     ("converted_timezone", Json.str c.converted_timezone),
     ("time_difference_hours", Json.num c.time_difference_hours)]

/-- Core of `ConvertTimeToolHandler.run_tool` (tools_time.py lines 201-228)
after argument extraction: resolve both zones, obtain the source datetime
("now" reads the clock; otherwise `fromisoformat` — oracle `parseIso` giving
wall-clock seconds or the parse `ValueError` — with a trailing "Z" stripped
first, then `replace(tzinfo=from_timezone)` in both branches), convert with
`astimezone` and take the offset difference in hours. -/
def convert_time_core (zi : String → Except String Tz)
    (parseIso : String → Except String ℤ) (now : ℤ)
    (datetime_str from_timezone_name to_timezone_name : String) :
    Except PyExn ConversionResult := do
  let from_timezone ← get_zoneinfo zi from_timezone_name
  let to_timezone ← get_zoneinfo zi to_timezone_name
  let source_time : PyDateTime ←
    if pyLower datetime_str = "now" then
      Except.ok (PyDateTime.mk now from_timezone)
    else do
      let raw := if datetime_str.endsWith "Z" then datetime_str.dropRight 1 else datetime_str
      let naive_time ← match parseIso raw with
        | .ok w => Except.ok w
        | .error m => Except.error (.valueError m)
      Except.ok (PyDateTime.mk (naive_time - from_timezone.offsetSeconds) from_timezone)
  let target_time := source_time.astimezone to_timezone
  Except.ok
    { original_datetime := source_time.isoformatSeconds
      original_timezone := from_timezone_name
      converted_datetime := target_time.isoformatSeconds
      converted_timezone := to_timezone_name
      time_difference_hours :=
        ((target_time.utcoffsetSeconds - source_time.utcoffsetSeconds : ℤ) : ℚ) / 3600 }

/-- Body of `ConvertTimeToolHandler.run_tool` (tools_time.py lines 188-235)
inside its `try`: validate, extract the three arguments, run the conversion,
serialise the result. -/
def convert_time_try (args : List (String × PyValue))
    (zi : String → Except String Tz)
    (parseIso : String → Except String ℤ) (now : ℤ) : Except PyExn String := do
  let _ ← validate_required_args (argKeys args)
    ["datetime_str", "from_timezone", "to_timezone"]
  let dtV ← pyGetKey args "datetime_str"
  let fromV ← pyGetKey args "from_timezone"
  let toV ← pyGetKey args "to_timezone"
  let datetime_str ← PyValue.asStr dtV
  let conversion_result ← convert_time_core zi parseIso now
    datetime_str fromV.toStr toV.toStr
  Except.ok (Json.dumps conversion_result.toJson)

/-- Embeds `ConvertTimeToolHandler.run_tool` (tools_time.py lines 188-244). -/
def convert_time_run (args : List (String × PyValue))
    (zi : String → Except String Tz)
    (parseIso : String → Except String ℤ) (now : ℤ) : List Content :=
  wrapTimeHandler (convert_time_try args zi parseIso now) "Error converting time: "

/- ===================== tools/tools_air_quality.py ===================== -/

/-- Body of `GetAirQualityToolHandler.run_tool` (tools_air_quality.py lines
67-111) inside its `try`: geocode, fetch air quality, extract the current
values, assemble the comprehensive payload and format it.  The `variables`
argument only shapes the request URL and is not modelled. -/
def get_air_quality_try (args : List (String × PyValue))
    (geoFetch : Except String GeoResponse)
    (aqFetch : Except String (ℕ × AqData)) (now : ℤ) : Except PyExn String := do
  let _ ← validate_required_args (argKeys args) ["city"]
  let cityV ← pyGetKey args "city"
  let city := cityV.toStr
  let (latitude, longitude) ← get_coordinates city geoFetch
  let aq_data ← get_air_quality aqFetch
  let current_aq ← get_current_air_quality_index aq_data now
  let response_data : Json := Json.obj
    [("city", Json.str city),
     ("latitude", Json.num latitude),
     ("longitude", Json.num longitude),
     ("current_air_quality", current_aq.toJson),
     ("full_data", aq_data.toJson)]
  Except.ok (format_air_quality_data response_data)

/-- Embeds `GetAirQualityToolHandler.run_tool` (tools_air_quality.py lines
67-128). -/
def get_air_quality_run (args : List (String × PyValue))
    (geoFetch : Except String GeoResponse)
    (aqFetch : Except String (ℕ × AqData)) (now : ℤ) : List Content :=
  wrapSummaryHandler (get_air_quality_try args geoFetch aqFetch now)

/-- Body of `GetAirQualityDetailsToolHandler.run_tool` (tools_air_quality.py
lines 180-220) inside its `try`: same pipeline, serialised as raw JSON. -/
def get_air_quality_details_try (args : List (String × PyValue))
    (geoFetch : Except String GeoResponse)
    (aqFetch : Except String (ℕ × AqData)) (now : ℤ) : Except PyExn Json := do
  let _ ← validate_required_args (argKeys args) ["city"]
  let cityV ← pyGetKey args "city"
  let city := cityV.toStr
  let (latitude, longitude) ← get_coordinates city geoFetch
  let aq_data ← get_air_quality aqFetch
  let current_aq ← get_current_air_quality_index aq_data now
  Except.ok (Json.obj
    [("city", Json.str city),
     ("latitude", Json.num latitude),
     ("longitude", Json.num longitude),
     ("current_air_quality", current_aq.toJson),
     ("full_data", aq_data.toJson)])

/-- Embeds `GetAirQualityDetailsToolHandler.run_tool` (tools_air_quality.py
lines 180-237). -/
def get_air_quality_details_run (args : List (String × PyValue))
    (geoFetch : Except String GeoResponse)
    (aqFetch : Except String (ℕ × AqData)) (now : ℤ) : List Content :=
  wrapDetailsHandler (get_air_quality_details_try args geoFetch aqFetch now)

/- ===================== server_origin.py ===================== -/

/-- A registered handler as the dispatcher sees it: its `run_tool`, which
either returns content items or raises. -/
abbrev HandlerFn := List (String × PyValue) → Except PyExn (List Content)

/-- The `try` block of `call_tool` (server_origin.py lines 236-252): reject a
non-dict `arguments` with `RuntimeError`, look the handler up
(`tool_handlers.get`) and reject an unknown name with `ValueError`, otherwise
delegate to the handler's `run_tool`. -/
def call_tool_attempt (registry : List (String × HandlerFn)) (name : String)
    (arguments : PyArgs) : Except PyExn (List Content) :=
  match arguments with
  | .nonDict => Except.error (.runtimeError "Arguments must be a dictionary")
  | .dict entries =>
      match registry.lookup name with
      | Option.none => Except.error (.valueError ("Unknown tool: " ++ name))
      | some handler => handler entries

/-- Embeds `call_tool` (server_origin.py lines 221-265): the `except
Exception` clause on line 254 encloses the whole `try` block — the dict
check, the lookup and the handler call alike — and turns any exception into a
single `TextContent` error item. -/
def call_tool (registry : List (String × HandlerFn)) (name : String)
    (arguments : PyArgs) : List Content :=
  match call_tool_attempt registry name arguments with
  | .ok result => result
  | .error e =>
      [Content.text ("Error executing tool \x27" ++ name ++ "\x27: " ++ e.msg)]

/- ===================== theorems ===================== -/

/-- A list of content items that consists of exactly one text item. -/
def isSingleText (l : List Content) : Prop := ∃ s, l = [Content.text s]

/-- Invariant-carrying specification of the `min` fold: starting from a best
candidate below the scan front with the first-minimum property over the
already-scanned prefix, the fold yields the first index of minimal key over
the whole range. -/
theorem pyMinBy_range'_spec (f : ℕ → ℤ) :
    ∀ (k s b : ℕ), b < s → (∀ j, j < s → f b ≤ f j) → (∀ j, j < b → f b < f j) →
      pyMinBy f (List.range' s k) b < s + k ∧
      (∀ j, j < s + k → f (pyMinBy f (List.range' s k) b) ≤ f j) ∧
      (∀ j, j < pyMinBy f (List.range' s k) b → f (pyMinBy f (List.range' s k) b) < f j) := by
  intro k
  induction k with
  | zero =>
      intro s b hbs hle hlt
      simp only [List.range'_zero, pyMinBy, Nat.add_zero]
      exact ⟨hbs, hle, hlt⟩
  | succ m ih =>
      intro s b hbs hle hlt
      rw [List.range'_succ]
      have hstep : pyMinBy f (s :: List.range' (s + 1) m) b
          = pyMinBy f (List.range' (s + 1) m) (if f s < f b then s else b) := rfl
      rw [hstep]
      by_cases h : f s < f b
      · simp only [h, if_true]
        have hle' : ∀ j, j < s + 1 → f s ≤ f j := by
          intro j hj
          rcases Nat.lt_succ_iff_lt_or_eq.mp hj with hj' | hj'
          · exact le_of_lt (lt_of_lt_of_le h (hle j hj'))
          · exact hj' ▸ le_refl _
        have hlt' : ∀ j, j < s → f s < f j := by
          intro j hj
          exact lt_of_lt_of_le h (hle j hj)
        have := ih (s + 1) s (Nat.lt_succ_self s) hle' hlt'
        refine ⟨by omega, ?_, this.2.2⟩
        intro j hj
        exact this.2.1 j (by omega)
      · simp only [h, if_false]
        have hle' : ∀ j, j < s + 1 → f b ≤ f j := by
          intro j hj
          rcases Nat.lt_succ_iff_lt_or_eq.mp hj with hj' | hj'
          · exact hle j hj'
          · exact hj' ▸ not_lt.mp h
        have := ih (s + 1) b (by omega) hle' hlt
        refine ⟨by omega, ?_, this.2.2⟩
        intro j hj
        exact this.2.1 j (by omega)

/-- Specification of `min(range(n), key=f)` for a non-empty range: it returns
an index of minimal key, and every smaller index has a strictly larger key
(first occurrence wins on ties). -/
theorem pyArgmin_spec (f : ℕ → ℤ) (n : ℕ) (hn : 0 < n) :
    ∃ i, pyArgmin f n = some i ∧ i < n ∧
      (∀ j, j < n → f i ≤ f j) ∧ (∀ j, j < i → f i < f j) := by
  obtain ⟨m, rfl⟩ : ∃ m, n = m + 1 := ⟨n - 1, by omega⟩
  have h := pyMinBy_range'_spec f m 1 0 Nat.zero_lt_one
    (fun j hj => by
      have : j = 0 := by omega
      exact this ▸ le_refl _)
    (fun j hj => absurd hj (Nat.not_lt_zero j))
  refine ⟨pyMinBy f (List.range' 1 m) 0, rfl, by omega, ?_, h.2.2⟩
  intro j hj
  exact h.2.1 j (by omega)

/-- The claim C2: for a non-empty timestamp list and any current UTC instant,
the closest-hour selection returns an index minimising the absolute difference
between the UTC-normalised timestamp (naive read as UTC, aware converted to
UTC) and the instant, with ties broken toward the smallest index; the
UTC-normalisation conjuncts state the treatment of naive and aware inputs. -/
theorem get_closest_utc_index_minimises (ts : List Timestamp) (now : ℤ)
    (hne : ts ≠ []) :
    (∃ i, get_closest_utc_index ts now = some i ∧ i < ts.length ∧
      (∀ j, j < ts.length →
        |((ts.getD i ⟨0, Option.none⟩).toUtc) - now| ≤
          |((ts.getD j ⟨0, Option.none⟩).toUtc) - now|) ∧
      (∀ j, j < i →
        |((ts.getD i ⟨0, Option.none⟩).toUtc) - now| <
          |((ts.getD j ⟨0, Option.none⟩).toUtc) - now|)) ∧
    (∀ w : ℤ, Timestamp.toUtc ⟨w, Option.none⟩ = w) ∧
    (∀ w o : ℤ, Timestamp.toUtc ⟨w, some o⟩ = w - o) := by
  refine ⟨?_, fun w => rfl, fun w o => rfl⟩
  have hlen : 0 < ts.length := List.length_pos.mpr hne
  exact pyArgmin_spec (fun i => |((ts.getD i ⟨0, Option.none⟩).toUtc) - now|) ts.length hlen

/-- Witness for C2 at a concrete input: one naive and one aware timestamp. -/
theorem get_closest_utc_index_minimises_witness :
    (∃ i, get_closest_utc_index [⟨100, Option.none⟩, ⟨50, some 10⟩] 45 = some i ∧
      i < ([⟨100, Option.none⟩, ⟨50, some 10⟩] : List Timestamp).length ∧
      (∀ j, j < ([⟨100, Option.none⟩, ⟨50, some 10⟩] : List Timestamp).length →
        |((([⟨100, Option.none⟩, ⟨50, some 10⟩] : List Timestamp).getD i
            ⟨0, Option.none⟩).toUtc) - 45| ≤
          |((([⟨100, Option.none⟩, ⟨50, some 10⟩] : List Timestamp).getD j
            ⟨0, Option.none⟩).toUtc) - 45|) ∧
      (∀ j, j < i →
        |((([⟨100, Option.none⟩, ⟨50, some 10⟩] : List Timestamp).getD i
            ⟨0, Option.none⟩).toUtc) - 45| <
          |((([⟨100, Option.none⟩, ⟨50, some 10⟩] : List Timestamp).getD j
            ⟨0, Option.none⟩).toUtc) - 45|)) ∧
    (∀ w : ℤ, Timestamp.toUtc ⟨w, Option.none⟩ = w) ∧
    (∀ w o : ℤ, Timestamp.toUtc ⟨w, some o⟩ = w - o) :=
  get_closest_utc_index_minimises [⟨100, Option.none⟩, ⟨50, some 10⟩] 45 (by decide)

/-- Counterexample for C9: with the hourly timestamps 2024-01-01T00:00:00Z,
01:00:00Z, 02:00:00Z (epoch seconds 1704067200, 1704070800, 1704074400, each
offset 0) and the current instant 2024-01-01T01:40:00Z (1704073200), the
selection does NOT return index 1: 01:40 is 40 minutes from 01:00 but only 20
minutes from 02:00. -/
theorem get_closest_utc_index_0140_not_one :
    get_closest_utc_index
      [⟨1704067200, some 0⟩, ⟨1704070800, some 0⟩, ⟨1704074400, some 0⟩]
      1704073200 ≠ some 1 := by decide

/-- The amended C9: at the current instant 2024-01-01T01:40:00Z the selection
over the three hourly timestamps returns index 2, the 02:00:00Z entry, which
is the closest (20 minutes away). -/
theorem get_closest_utc_index_0140_is_two :
    get_closest_utc_index
      [⟨1704067200, some 0⟩, ⟨1704070800, some 0⟩, ⟨1704074400, some 0⟩]
      1704073200 = some 2 := by decide

/-- The claim C3: required-argument validation collects every missing required
field — the filtered list is exactly the required fields absent from the
argument keys, in their declaration order (a sublist of `required_fields`) —
and fails with a single error naming all of them, while succeeding when
nothing is missing. -/
theorem validate_required_args_reports_all (keys required_fields : List String) :
    (required_fields.filter (fun f => !(keys.contains f)) = [] →
        validate_required_args keys required_fields = Except.ok ()) ∧
    (required_fields.filter (fun f => !(keys.contains f)) ≠ [] →
        validate_required_args keys required_fields =
          Except.error (.runtimeError ("Missing required arguments: " ++
            String.intercalate ", "
              (required_fields.filter (fun f => !(keys.contains f)))))) ∧
    (∀ f, f ∈ required_fields.filter (fun f => !(keys.contains f)) ↔
        f ∈ required_fields ∧ f ∉ keys) ∧
    (required_fields.filter (fun f => !(keys.contains f))).Sublist required_fields := by
  refine ⟨?_, ?_, ?_, List.filter_sublist _⟩
  · intro h
    simp only [validate_required_args, h]
    rfl
  · intro h
    rcases hf : required_fields.filter (fun f => !(keys.contains f)) with _ | ⟨a, as⟩
    · exact absurd hf h
    · simp only [validate_required_args, hf]
      rfl
  · intro f
    simp [List.mem_filter]

/-- Witness for C3 at a concrete input: with only `city` supplied, both
`start_date` and `end_date` are reported together; with nothing missing the
validation succeeds. -/
theorem validate_required_args_reports_all_witness :
    validate_required_args ["city"] ["city", "start_date", "end_date"] =
      Except.error (.runtimeError ("Missing required arguments: " ++
        String.intercalate ", " ((["city", "start_date", "end_date"] : List String).filter
          (fun f => !((["city"] : List String).contains f))))) ∧
    validate_required_args ["city"] ["city"] = Except.ok () :=
  ⟨(validate_required_args_reports_all ["city"] ["city", "start_date", "end_date"]).2.1
      (by decide),
   (validate_required_args_reports_all ["city"] ["city"]).1 (by decide)⟩

/-- The claim C5: PM2.5 banding follows the stated cutoffs — each band is
inclusive at its upper bound — and in particular 12.0 is "Good", 12.1 is
"Moderate" and 250.1 is "Hazardous". -/
theorem pm25_banding_cutoffs (x : ℚ) :
    (x ≤ 12 → _get_pm25_level x = "Good") ∧
    (12 < x → x ≤ 35 → _get_pm25_level x = "Moderate") ∧
    (35 < x → x ≤ 55 → _get_pm25_level x = "Unhealthy for Sensitive Groups") ∧
    (55 < x → x ≤ 150 → _get_pm25_level x = "Unhealthy") ∧
    (150 < x → x ≤ 250 → _get_pm25_level x = "Very Unhealthy") ∧
    (250 < x → _get_pm25_level x = "Hazardous") ∧
    _get_pm25_level 12 = "Good" ∧
    _get_pm25_level (121/10) = "Moderate" ∧
    _get_pm25_level (2501/10) = "Hazardous" := by
  refine ⟨?_, ?_, ?_, ?_, ?_, ?_, ?_, ?_, ?_⟩ <;>
    simp only [_get_pm25_level] <;> intros <;> split_ifs <;> first | rfl | linarith

/-- Witness for C5: one concrete concentration in each band, obtained by
applying the banding theorem and discharging the interval hypotheses. -/
theorem pm25_banding_cutoffs_witness :
    _get_pm25_level 5 = "Good" ∧
    _get_pm25_level 20 = "Moderate" ∧
    _get_pm25_level 40 = "Unhealthy for Sensitive Groups" ∧
    _get_pm25_level 100 = "Unhealthy" ∧
    _get_pm25_level 200 = "Very Unhealthy" ∧
    _get_pm25_level 300 = "Hazardous" :=
  ⟨(pm25_banding_cutoffs 5).1 (by norm_num),
   (pm25_banding_cutoffs 20).2.1 (by norm_num) (by norm_num),
   (pm25_banding_cutoffs 40).2.2.1 (by norm_num) (by norm_num),
   (pm25_banding_cutoffs 100).2.2.2.1 (by norm_num) (by norm_num),
   (pm25_banding_cutoffs 200).2.2.2.2.1 (by norm_num) (by norm_num),
   (pm25_banding_cutoffs 300).2.2.2.2.2.1 (by norm_num)⟩

/-- The claim C6: the compass label is the entry of the 16-point table at
index `round(degrees / 22.5) mod 16`, with Python's round-half-to-even
rounding (`pyRound`), and in particular 0° is "N", 90° is "E" and 100° is
"E". -/
theorem degrees_to_compass_table (d : ℚ) :
    _degrees_to_compass d =
      (["N", "NNE", "NE", "ENE", "E", "ESE", "SE", "SSE",
        "S", "SSW", "SW", "WSW", "W", "WNW", "NW", "NNW"] : List String).getD
        ((pyRound (d / 22.5)).emod 16).toNat "" ∧
    _degrees_to_compass 0 = "N" ∧
    _degrees_to_compass 90 = "E" ∧
    _degrees_to_compass 100 = "E" := by
  refine ⟨rfl, ?_, ?_, ?_⟩
  · have h : pyRound (0 / 22.5) = 0 := by norm_num [pyRound]
    simp only [_degrees_to_compass]
    rw [h]
    decide
  · have h : pyRound (90 / 22.5) = 4 := by norm_num [pyRound]
    simp only [_degrees_to_compass]
    rw [h]
    decide
  · have h : pyRound (100 / 22.5) = 4 := by norm_num [pyRound]
    simp only [_degrees_to_compass]
    rw [h]
    decide

/-- The claim C7: coordinate resolution returns the latitude/longitude of the
first geocoding result; a non-200 status yields the upstream-status error, an
absent or empty `results` array yields the location-not-found error naming the
city, and a missing expected key yields the malformed-response error.  The
checks happen in this order, so the later conjuncts assume a 200 status. -/
theorem get_coordinates_taxonomy (city : String) (resp : GeoResponse) :
    (resp.status ≠ 200 →
      get_coordinates city (Except.ok resp) =
        Except.error (.valueError ("Geocoding API returned status " ++ toString resp.status))) ∧
    (resp.status = 200 → (resp.results? = Option.none ∨ resp.results? = some []) →
      get_coordinates city (Except.ok resp) =
        Except.error (.valueError ("No coordinates found for city: " ++ city))) ∧
    (∀ r rest la lo, resp.status = 200 → resp.results? = some (r :: rest) →
      r.latitude? = some la → r.longitude? = some lo →
      get_coordinates city (Except.ok resp) = Except.ok (la, lo)) ∧
    (∀ r rest, resp.status = 200 → resp.results? = some (r :: rest) →
      (r.latitude? = Option.none ∨ r.longitude? = Option.none) →
      ∃ k, get_coordinates city (Except.ok resp) =
        Except.error (.valueError
          ("Invalid response format from geocoding API: \x27" ++ k ++ "\x27"))) := by
  refine ⟨?_, ?_, ?_, ?_⟩
  · intro h
    simp [get_coordinates, h]
  · rintro h (hr | hr) <;> simp [get_coordinates, h, hr]
  · rintro r rest la lo h hr hla hlo
    simp [get_coordinates, h, hr, hla, hlo]
  · rintro r rest h hr (hla | hlo)
    · exact ⟨"latitude", by simp [get_coordinates, h, hr, hla]⟩
    · rcases hla : r.latitude? with _ | la
      · exact ⟨"latitude", by simp [get_coordinates, h, hr, hla]⟩
      · exact ⟨"longitude", by simp [get_coordinates, h, hr, hla, hlo]⟩

/-- Witness for C7 at concrete responses: a 404 status, an empty result set,
a successful first result, and a first result missing its longitude. -/
theorem get_coordinates_taxonomy_witness :
    (get_coordinates "Paris" (Except.ok ⟨404, some [⟨some 1, some 2⟩]⟩) =
      Except.error (.valueError ("Geocoding API returned status " ++ toString 404))) ∧
    (get_coordinates "Paris" (Except.ok ⟨200, some []⟩) =
      Except.error (.valueError ("No coordinates found for city: " ++ "Paris"))) ∧
    (get_coordinates "Paris" (Except.ok ⟨200, some [⟨some (487/10), some (23/10)⟩]⟩) =
      Except.ok (487/10, 23/10)) ∧
    (∃ k, get_coordinates "Paris" (Except.ok ⟨200, some [⟨some (487/10), Option.none⟩]⟩) =
      Except.error (.valueError
        ("Invalid response format from geocoding API: \x27" ++ k ++ "\x27"))) :=
  ⟨(get_coordinates_taxonomy "Paris" ⟨404, some [⟨some 1, some 2⟩]⟩).1 (by decide),
   (get_coordinates_taxonomy "Paris" ⟨200, some []⟩).2.1 rfl (Or.inr rfl),
   (get_coordinates_taxonomy "Paris" ⟨200, some [⟨some (487/10), some (23/10)⟩]⟩).2.2.1
     ⟨some (487/10), some (23/10)⟩ [] (487/10) (23/10) rfl rfl rfl rfl,
   (get_coordinates_taxonomy "Paris" ⟨200, some [⟨some (487/10), Option.none⟩]⟩).2.2.2
     ⟨some (487/10), Option.none⟩ [] rfl rfl (Or.inr rfl)⟩

/-- Counterexample for C1: dispatch-level errors are not raised past
`call_tool`.  An unknown tool name and a non-dict `arguments` value are both
caught by the blanket `except Exception` and converted into a single text
content item, because the `try` block encloses the dispatch checks. -/
theorem call_tool_dispatch_errors_become_text :
    call_tool [] "foo" (PyArgs.dict []) =
      [Content.text "Error executing tool \x27foo\x27: Unknown tool: foo"] ∧
    call_tool [] "foo" PyArgs.nonDict =
      [Content.text "Error executing tool \x27foo\x27: Arguments must be a dictionary"] := by
  constructor <;> rfl

/-- The amended C1: every error raised inside `call_tool` — a handler failure,
an unknown tool name, or a non-mapping `arguments` value alike — is caught and
converted into a single text content item describing the failure, and a
successful handler result is passed through unchanged; `call_tool` never
raises. -/
theorem call_tool_error_boundary (registry : List (String × HandlerFn))
    (name : String) (entries : List (String × PyValue)) (h : HandlerFn) (e : PyExn) :
    (registry.lookup name = some h → h entries = Except.error e →
      call_tool registry name (PyArgs.dict entries) =
        [Content.text ("Error executing tool \x27" ++ name ++ "\x27: " ++ e.msg)]) ∧
    (registry.lookup name = Option.none →
      call_tool registry name (PyArgs.dict entries) =
        [Content.text ("Error executing tool \x27" ++ name ++ "\x27: " ++
          ("Unknown tool: " ++ name))]) ∧
    (call_tool registry name PyArgs.nonDict =
      [Content.text ("Error executing tool \x27" ++ name ++ "\x27: " ++
        "Arguments must be a dictionary")]) ∧
    (∀ r, registry.lookup name = some h → h entries = Except.ok r →
      call_tool registry name (PyArgs.dict entries) = r) := by
  refine ⟨?_, ?_, ?_, ?_⟩
  · intro hl he
    simp [call_tool, call_tool_attempt, hl, he, PyExn.msg]
  · intro hl
    simp [call_tool, call_tool_attempt, hl, PyExn.msg]
  · rfl
  · intro r hl hr
    simp [call_tool, call_tool_attempt, hl, hr]

/-- Witness for C1 at a concrete registry: a handler that raises is rendered
as an error text item; an unknown name likewise; a successful handler's items
pass through. -/
theorem call_tool_error_boundary_witness :
    (call_tool [("t", fun _ => Except.error (.valueError "boom"))] "t" (PyArgs.dict []) =
      [Content.text ("Error executing tool \x27" ++ "t" ++ "\x27: " ++
        (PyExn.valueError "boom").msg)]) ∧
    (call_tool [("t", fun _ => Except.error (.valueError "boom"))] "u" (PyArgs.dict []) =
      [Content.text ("Error executing tool \x27" ++ "u" ++ "\x27: " ++
        ("Unknown tool: " ++ "u"))]) ∧
    (call_tool [("t", fun _ => Except.ok [Content.text "fine"])] "t" (PyArgs.dict []) =
      [Content.text "fine"]) :=
  ⟨(call_tool_error_boundary [("t", fun _ => Except.error (.valueError "boom"))] "t" []
      (fun _ => Except.error (.valueError "boom")) (.valueError "boom")).1 rfl rfl,
   (call_tool_error_boundary [("t", fun _ => Except.error (.valueError "boom"))] "u" []
      (fun _ => Except.error (.valueError "boom")) (.valueError "boom")).2.1 rfl,
   (call_tool_error_boundary [("t", fun _ => Except.ok [Content.text "fine"])] "t" []
      (fun _ => Except.ok [Content.text "fine"]) (.valueError "boom")).2.2.2
      [Content.text "fine"] rfl rfl⟩

/-- Every branch of the summary-handler frame yields one text item. -/
theorem wrapSummaryHandler_singleText (body : Except PyExn String) :
    isSingleText (wrapSummaryHandler body) := by
  cases body with
  | ok s => exact ⟨s, rfl⟩
  | error e => cases e <;> exact ⟨_, rfl⟩

/-- Every branch of the details-handler frame yields one text item. -/
theorem wrapDetailsHandler_singleText (body : Except PyExn Json) :
    isSingleText (wrapDetailsHandler body) := by
  cases body with
  | ok j => exact ⟨_, rfl⟩
  | error e => cases e <;> exact ⟨_, rfl⟩

/-- Every branch of the time-handler frame yields one text item. -/
theorem wrapTimeHandler_singleText (body : Except PyExn String) (errHead : String) :
    isSingleText (wrapTimeHandler body errHead) := by
  cases body with
  | ok s => exact ⟨s, rfl⟩
  | error e => exact ⟨_, rfl⟩

/-- The claim C4: each of the eight handlers' `run_tool`, on success and on
every handled failure, returns exactly one content item and it is a text
item; the dispatcher's error path likewise produces exactly one text item. -/
theorem run_tools_single_text_content
    (args : List (String × PyValue))
    (geoFetch geoFetch2 : Except String GeoResponse)
    (weatherFetch rangeFetch : Except String WeatherApiResponse)
    (aqFetch : Except String (ℕ × AqData))
    (zi : String → Except String Tz) (parseIso : String → Except String ℤ)
    (now utcNow : ℤ) (today tomorrow : String)
    (registry : List (String × HandlerFn)) (name : String) (arguments : PyArgs) :
    isSingleText (get_current_weather_run args geoFetch weatherFetch now) ∧
    isSingleText (get_weather_byDateTimeRange_run args geoFetch rangeFetch) ∧
    isSingleText (get_weather_details_run args geoFetch weatherFetch now today tomorrow
      geoFetch2 rangeFetch) ∧
    isSingleText (get_current_datetime_run args zi now) ∧
    isSingleText (get_timezone_info_run args zi now utcNow) ∧
    isSingleText (convert_time_run args zi parseIso now) ∧
    isSingleText (get_air_quality_run args geoFetch aqFetch now) ∧
    isSingleText (get_air_quality_details_run args geoFetch aqFetch now) ∧
    (∀ e, call_tool_attempt registry name arguments = Except.error e →
      isSingleText (call_tool registry name arguments)) :=
  ⟨wrapSummaryHandler_singleText _,
   wrapSummaryHandler_singleText _,
   wrapDetailsHandler_singleText _,
   wrapTimeHandler_singleText _ _,
   wrapTimeHandler_singleText _ _,
   wrapTimeHandler_singleText _ _,
   wrapSummaryHandler_singleText _,
   wrapDetailsHandler_singleText _,
   fun e he => by simp [call_tool, he]; exact ⟨_, rfl⟩⟩

/-- Witness for C4: the dispatcher conjunct applied at a concrete failing
dispatch (non-dict arguments against an empty registry). -/
theorem run_tools_single_text_content_witness :
    isSingleText (call_tool [] "foo" PyArgs.nonDict) :=
  (run_tools_single_text_content [] (Except.error "") (Except.error "")
      (Except.error "") (Except.error "") (Except.error "")
      (fun _ => Except.error "") (fun _ => Except.error "") 0 0 "" ""
      [] "foo" PyArgs.nonDict).2.2.2.2.2.2.2.2
    (.runtimeError "Arguments must be a dictionary") rfl

/-- The claim C8: converting "now" from UTC to any resolvable destination zone
produces a `time_difference_hours` equal to (destination offset − source
offset) / 3600 seconds, which for a zero-offset UTC source is exactly the
destination's UTC offset in hours; the handler returns that payload as its
single text item. -/
theorem convert_time_now_from_utc
    (zi : String → Except String Tz) (parseIso : String → Except String ℤ)
    (now : ℤ) (toName : String) (utcTz destTz : Tz)
    (hU : zi "UTC" = Except.ok utcTz) (h0 : utcTz.offsetSeconds = 0)
    (hD : zi toName = Except.ok destTz) :
    ∃ r, convert_time_core zi parseIso now "now" "UTC" toName = Except.ok r ∧
      r.time_difference_hours =
        ((destTz.offsetSeconds - utcTz.offsetSeconds : ℤ) : ℚ) / 3600 ∧
      r.time_difference_hours = ((destTz.offsetSeconds : ℤ) : ℚ) / 3600 ∧
      convert_time_run
          [("datetime_str", PyValue.str "now"), ("from_timezone", PyValue.str "UTC"),
           ("to_timezone", PyValue.str toName)] zi parseIso now =
        [Content.text (Json.dumps r.toJson)] := by
  have hl : pyLower "now" = "now" := by decide
  have hcore : convert_time_core zi parseIso now "now" "UTC" toName =
      Except.ok
        { original_datetime := (PyDateTime.mk now utcTz).isoformatSeconds
          original_timezone := "UTC"
          converted_datetime := ((PyDateTime.mk now utcTz).astimezone destTz).isoformatSeconds
          converted_timezone := toName
          time_difference_hours :=
            ((destTz.offsetSeconds - utcTz.offsetSeconds : ℤ) : ℚ) / 3600 } := by
    simp only [convert_time_core, get_zoneinfo, hU, hD, hl, PyDateTime.astimezone,
      PyDateTime.utcoffsetSeconds, if_pos]
    rfl
  refine ⟨_, hcore, rfl, by simp [h0], ?_⟩
  have htry : convert_time_try
      [("datetime_str", PyValue.str "now"), ("from_timezone", PyValue.str "UTC"),
       ("to_timezone", PyValue.str toName)] zi parseIso now =
      (convert_time_core zi parseIso now "now" "UTC" toName).bind
        (fun cr => Except.ok (Json.dumps cr.toJson)) := rfl
  rw [convert_time_run, htry, hcore]
  rfl

/-- Concrete UTC zone for the C8 witness. -/
def utcW : Tz := ⟨"UTC", 0, Option.none, "UTC"⟩

/-- Concrete America/New_York zone (standard time, offset −5 h) for the C8
witness. -/
def nyW : Tz := ⟨"America/New_York", -18000, some 0, "EST"⟩

/-- Concrete `ZoneInfo` oracle for the C8 witness. -/
def ziW : String → Except String Tz := fun n =>
  if n = "UTC" then Except.ok utcW
  else if n = "America/New_York" then Except.ok nyW
  else Except.error ("No time zone found with key " ++ n)

/-- Witness for C8: converting "now" from UTC to America/New_York (offset
−18000 s) yields a time difference of −18000/3600 = −5 hours. -/
theorem convert_time_now_from_utc_witness :
    ∃ r, convert_time_core ziW (fun _ => Except.error "") 1704067200
        "now" "UTC" "America/New_York" = Except.ok r ∧
      r.time_difference_hours = ((nyW.offsetSeconds - utcW.offsetSeconds : ℤ) : ℚ) / 3600 ∧
      r.time_difference_hours = ((nyW.offsetSeconds : ℤ) : ℚ) / 3600 ∧
      convert_time_run
          [("datetime_str", PyValue.str "now"), ("from_timezone", PyValue.str "UTC"),
           ("to_timezone", PyValue.str "America/New_York")] ziW
          (fun _ => Except.error "") 1704067200 =
        [Content.text (Json.dumps r.toJson)] :=
  convert_time_now_from_utc ziW (fun _ => Except.error "") 1704067200
    "America/New_York" utcW nyW rfl rfl rfl

/-- Any successful current-weather body result carries a description computed
from its own weather code through the table lookup. -/
theorem get_current_weather_body_description (city : String)
    (geoFetch : Except String GeoResponse)
    (weatherFetch : Except String WeatherApiResponse) (now : ℤ) (w : Weather)
    (h : get_current_weather_body city geoFetch weatherFetch now = Except.ok w) :
    w.weather_description = weatherDescriptionOf w.weather_code := by
  simp only [get_current_weather_body, bind, Except.bind, pyGet] at h
  repeat' split at h
  any_goals simp_all
  rw [← h]

/-- The claim C10: a weather code found among the 28 keys of the description
table yields the table's string, any other code yields
"Unknown weather condition", and every successful current-weather lookup
carries a description obtained exactly this way from its weather code. -/
theorem weather_description_total (c : ℤ) (s : String) (city : String)
    (geoFetch : Except String GeoResponse)
    (weatherFetch : Except String WeatherApiResponse) (now : ℤ) (w : Weather) :
    (weather_descriptions.lookup c = some s → weatherDescriptionOf c = s) ∧
    (weather_descriptions.lookup c = Option.none →
      weatherDescriptionOf c = "Unknown weather condition") ∧
    weather_descriptions.length = 28 ∧
    (weather_descriptions.map Prod.fst).Nodup ∧
    (get_current_weather city geoFetch weatherFetch now = Except.ok w →
      w.weather_description = weatherDescriptionOf w.weather_code) := by
  refine ⟨?_, ?_, by decide, by decide, ?_⟩
  · intro h
    simp [weatherDescriptionOf, h]
  · intro h
    simp [weatherDescriptionOf, h]
  · intro h
    have hb : get_current_weather_body city geoFetch weatherFetch now = Except.ok w := by
      unfold get_current_weather at h
      split at h <;> simp_all
    exact get_current_weather_body_description city geoFetch weatherFetch now w hb

/-- Concrete geocoding response for the C10 witness. -/
def geoW : Except String GeoResponse :=
  Except.ok ⟨200, some [⟨some (487/10), some (23/10)⟩]⟩

/-- Concrete hourly data (one hour, weather code 95) for the C10 witness. -/
def hdW : HourlyData :=
  { time := [⟨"2024-01-01T00:00:00+00:00", ⟨1704067200, some 0⟩⟩]
    temperature_2m := [10]
    relative_humidity_2m := [50]
    dew_point_2m := [5]
    weather_code := [95]
    wind_speed_10m := [10]
    wind_direction_10m := [90]
    wind_gusts_10m := [20]
    precipitation := [0]
    rain := [0]
    snowfall := [0]
    precipitation_probability := [0]
    pressure_msl := [1000]
    cloud_cover := [50]
    uv_index := [1]
    apparent_temperature := [10]
    visibility := [10000] }

/-- Concrete forecast response for the C10 witness. -/
def wrespW : Except String WeatherApiResponse := Except.ok ⟨200, some hdW⟩

/-- The current-weather record the embedded service builds from `geoW` and
`wrespW` at instant 1704067200. -/
def cwW : Weather :=
  { city := "Paris"
    latitude := 487/10
    longitude := 23/10
    time := "2024-01-01T00:00:00+00:00"
    temperature_c := 10
    relative_humidity_percent := 50
    dew_point_c := 5
    weather_code := 95
    weather_description := "Thunderstorm"
    wind_speed_kmh := 10
    wind_direction_degrees := 90
    wind_gusts_kmh := 20
    precipitation_mm := 0
    rain_mm := 0
    snowfall_cm := 0
    precipitation_probability_percent := 0
    pressure_hpa := 1000
    cloud_cover_percent := 50
    uv_index := 1
    apparent_temperature_c := 10
    visibility_m := 10000 }

/-- Witness for C10: code 95 is in the table ("Thunderstorm"), code 4 is not
("Unknown weather condition"), and a concrete successful lookup carries the
table description of its code. -/
theorem weather_description_total_witness :
    weatherDescriptionOf 95 = "Thunderstorm" ∧
    weatherDescriptionOf 4 = "Unknown weather condition" ∧
    cwW.weather_description = weatherDescriptionOf cwW.weather_code :=
  ⟨(weather_description_total 95 "Thunderstorm" "Paris" geoW wrespW 0 cwW).1 (by decide),
   (weather_description_total 4 "" "Paris" geoW wrespW 0 cwW).2.1 (by decide),
   (weather_description_total 0 "" "Paris" geoW wrespW 1704067200 cwW).2.2.2.2 rfl⟩
